import Mathlib

/-!
Shallow embedding of the AgentGambler core: the risk-sizing decision engine
(`agent_gambler/strategies/gamblers_logic.py`) and the portfolio ledger
(`agent_gambler/trading/portfolio.py`), together with the configuration values
they read (`agent_gambler/config.py`).

Modelling conventions:
* Python floats are modelled as rationals (`ℚ`); all arithmetic in the claims
  under study is exact on the values involved.
* The wall clock (`time.time()` / `datetime.now()`) is passed in explicitly as
  a rational `now` where the source reads it; ISO-string rendering of times in
  `TradeRecord` is kept as the raw rational instant.
* Python `dict[str, Position]` is an insertion-ordered association list with
  update-in-place semantics (`dictInsert` / `dictGet`).
* File I/O in `save_state` / `load_state` is split off: `save_state` returns
  the JSON-dict content as a `PortfolioState` value and `load_state` consumes
  one; the existence check on the snapshot file is the caller.
-/

namespace AgentGambler

/-! ## Configuration (`config.py`) -/

/-- `TradingConfig` from `config.py` (the fields the core reads). -/
structure TradingConfig where
  starting_capital_usd : ℚ
  moonshot_target_usd : ℚ
  max_single_bet_pct : ℚ
  stop_loss_pct : ℚ
  kelly_fraction : ℚ
  compound_wins : Bool
  min_edge_threshold : ℚ
deriving DecidableEq

/-- `AgentConfig` restricted to the fields consumed by the core engine and
ledger (wallet/RPC/venue endpoint configuration is external I/O). -/
structure AgentConfig where
  trading : TradingConfig
  optimism_level : String
deriving DecidableEq

/-! ## Portfolio ledger data model (`trading/portfolio.py`) -/

/-- The `Position` dataclass. `entry_time` is the clock value recorded at
construction; `funding_rate` defaults to 0 as in the source. -/
structure Position where
  position_id : String
  platform : String
  market_id : String
  market_name : String
  side : String
  entry_price : ℚ
  current_price : ℚ
  size_usd : ℚ
  quantity : ℚ
  stop_loss : Option ℚ := none
  take_profit : Option ℚ := none
  entry_time : ℚ := 0
  status : String := "open"
  leverage : Option ℚ := none
  liquidation_price : Option ℚ := none
  funding_rate : ℚ := 0
deriving DecidableEq

/-- `Position.unrealized_pnl`: side-aware price move times quantity, scaled by
leverage when `leverage and leverage > 1.0` (Python truthiness: `None` and `0`
both fall to the unscaled branch). -/
def Position.unrealized_pnl (p : Position) : ℚ :=
  let pnl := if p.side = "yes" ∨ p.side = "long"
    then (p.current_price - p.entry_price) * p.quantity
    else (p.entry_price - p.current_price) * p.quantity
  match p.leverage with
  | some l => if l > 1 then pnl * l else pnl
  | none => pnl

/-- `Position.unrealized_pnl_pct`. -/
def Position.unrealized_pnl_pct (p : Position) : ℚ :=
  if p.size_usd = 0 then 0 else p.unrealized_pnl / p.size_usd * 100

/-- `Position.hold_duration_mins`, with the current clock passed in. -/
def Position.hold_duration_mins (p : Position) (now : ℚ) : ℚ :=
  (now - p.entry_time) / 60

/-- The `TradeRecord` dataclass; entry/exit times kept as rational instants. -/
structure TradeRecord where
  position_id : String
  platform : String
  market_name : String
  side : String
  entry_price : ℚ
  exit_price : ℚ
  size_usd : ℚ
  realized_pnl : ℚ
  realized_pnl_pct : ℚ
  hold_duration_mins : ℚ
  entry_time : ℚ
  exit_time : ℚ
  rationale : String := ""
  exit_reason : String := ""
deriving DecidableEq

/-- Insertion-ordered dict update (Python `d[k] = v`): replace in place when
the key is present (keys are unique in a dict, so replacing the first hit is
replacing the only one), append otherwise. -/
def dictInsert (l : List (String × Position)) (k : String) (v : Position) :
    List (String × Position) :=
  match l with
  | [] => [(k, v)]
  | a :: t => if a.1 = k then (k, v) :: t else a :: dictInsert t k v

/-- Python `d.get(k)` on the association-list dict. -/
def dictGet (l : List (String × Position)) (k : String) : Option Position :=
  (l.find? (fun kv => kv.1 = k)).map (fun kv => kv.2)

/-- The mutable state of `PortfolioManager` (the `config` handle is kept;
`data_dir` is file-system plumbing and lives outside the model). -/
structure PortfolioManager where
  config : AgentConfig
  positions : List (String × Position)
  trade_history : List TradeRecord
  starting_balance : ℚ
  current_balance : ℚ
  total_realized_pnl : ℚ
  total_fees_paid : ℚ
deriving DecidableEq

/-- `PortfolioManager.__init__`. -/
def PortfolioManager.init (config : AgentConfig) : PortfolioManager :=
  { config
    positions := []
    trade_history := []
    starting_balance := config.trading.starting_capital_usd
    current_balance := config.trading.starting_capital_usd
    total_realized_pnl := 0
    total_fees_paid := 0 }

/-- `PortfolioManager.total_exposure`: over open positions, collateral plus
unrealized P&L (collateral is `size_usd/leverage` in the leveraged branch). -/
def PortfolioManager.total_exposure (pm : PortfolioManager) : ℚ :=
  (pm.positions.map (fun kv =>
    if kv.2.status = "open" then
      match kv.2.leverage with
      | some l => if l > 1 then kv.2.size_usd / l + kv.2.unrealized_pnl
                  else kv.2.size_usd + kv.2.unrealized_pnl
      | none => kv.2.size_usd + kv.2.unrealized_pnl
    else 0)).sum

/-- `PortfolioManager.available_balance`. -/
def PortfolioManager.available_balance (pm : PortfolioManager) : ℚ :=
  pm.current_balance - pm.total_exposure

/-- `PortfolioManager.total_portfolio_value`: cash plus the sum of
`unrealized_pnl` over open positions, exactly as the property computes it. -/
def PortfolioManager.total_portfolio_value (pm : PortfolioManager) : ℚ :=
  pm.current_balance +
    (pm.positions.map (fun kv =>
      if kv.2.status = "open" then kv.2.unrealized_pnl else 0)).sum

/-- `PortfolioManager.open_position`: builds the `Position` (quantity
`size_usd/entry_price` when `entry_price > 0`, else 0; `current_price` starts
at `entry_price`), stores it, and debits the collateral
(`size_usd/leverage` when `leverage and leverage > 1.0`, else `size_usd`).
The source performs no input validation and has no failure path. -/
def PortfolioManager.open_position (pm : PortfolioManager)
    (position_id platform market_id market_name side : String)
    (entry_price size_usd : ℚ)
    (stop_loss : Option ℚ := none) (take_profit : Option ℚ := none)
    (leverage : Option ℚ := none) (liquidation_price : Option ℚ := none)
    (now : ℚ := 0) : PortfolioManager × Position :=
  let quantity := if entry_price > 0 then size_usd / entry_price else 0
  let position : Position :=
    { position_id, platform, market_id, market_name, side
      entry_price
      current_price := entry_price
      size_usd, quantity, stop_loss, take_profit
      entry_time := now
      leverage, liquidation_price }
  let collateral := match leverage with
    | some l => if l > 1 then size_usd / l else size_usd
    | none => size_usd
  ({ pm with
      positions := dictInsert pm.positions position_id position
      current_balance := pm.current_balance - collateral }, position)

/-- `PortfolioManager.close_position`: `None` when the id is absent or the
position is not open; otherwise set `current_price := exit_price`, mark
closed, credit `collateral + pnl` (leveraged) or `size_usd + pnl`, accumulate
`total_realized_pnl`, and append the `TradeRecord`. -/
def PortfolioManager.close_position (pm : PortfolioManager)
    (position_id : String) (exit_price : ℚ) (exit_reason : String := "manual")
    (now : ℚ := 0) : PortfolioManager × Option TradeRecord :=
  match dictGet pm.positions position_id with
  | none => (pm, none)
  | some position =>
    if position.status ≠ "open" then (pm, none)
    else
      let position := { position with current_price := exit_price, status := "closed" }
      let pnl := position.unrealized_pnl
      let pnl_pct := position.unrealized_pnl_pct
      let credit := match position.leverage with
        | some l => if l > 1 then position.size_usd / l + pnl
                    else position.size_usd + pnl
        | none => position.size_usd + pnl
      let record : TradeRecord :=
        { position_id
          platform := position.platform
          market_name := position.market_name
          side := position.side
          entry_price := position.entry_price
          exit_price
          size_usd := position.size_usd
          realized_pnl := pnl
          realized_pnl_pct := pnl_pct
          hold_duration_mins := position.hold_duration_mins now
          entry_time := position.entry_time
          exit_time := now
          exit_reason }
      ({ pm with
          positions := dictInsert pm.positions position_id position
          current_balance := pm.current_balance + credit
          total_realized_pnl := pm.total_realized_pnl + pnl
          trade_history := pm.trade_history ++ [record] }, some record)

/-- `PortfolioManager.update_position_price`. -/
def PortfolioManager.update_position_price (pm : PortfolioManager)
    (position_id : String) (current_price : ℚ) : PortfolioManager :=
  match dictGet pm.positions position_id with
  | none => pm
  | some p => { pm with
      positions := dictInsert pm.positions position_id
        { p with current_price } }

/-- `PortfolioManager.check_stop_losses`: ids of open positions whose
direction-aware stop is breached. Mirrors the `if`/`elif` of the source: a
side outside the four known values matches neither branch and is never
appended. -/
def PortfolioManager.check_stop_losses (pm : PortfolioManager) : List String :=
  (pm.positions.filter (fun kv =>
    decide (kv.2.status = "open") &&
    match kv.2.stop_loss with
    | none => false
    | some sl =>
      if kv.2.side = "yes" ∨ kv.2.side = "long" then
        decide (kv.2.current_price ≤ sl)
      else if kv.2.side = "no" ∨ kv.2.side = "short" then
        decide (kv.2.current_price ≥ sl)
      else false)).map (fun kv => kv.1)

/-! ## Persistence (`save_state` / `load_state`) -/

/-- Per-position content of the JSON snapshot written by `save_state`. The
three keys that `load_state` pre-fills with `setdefault` for backward
compatibility are wrapped one more time in `Option`: the outer `none` models
the key being absent from an older snapshot. `take_profit` has no key here:
`save_state` does not write it. -/
structure PositionData where
  position_id : String
  platform : String
  market_id : String
  market_name : String
  side : String
  entry_price : ℚ
  current_price : ℚ
  size_usd : ℚ
  quantity : ℚ
  stop_loss : Option ℚ
  entry_time : ℚ
  status : String
  leverage : Option (Option ℚ)
  liquidation_price : Option (Option ℚ)
  funding_rate : Option ℚ
deriving DecidableEq

/-- The full JSON snapshot content. -/
structure PortfolioState where
  current_balance : ℚ
  total_realized_pnl : ℚ
  total_fees_paid : ℚ
  positions : List (String × PositionData)
  trade_count : Nat
deriving DecidableEq

/-- The per-position dict built by `save_state` (every key written). -/
def positionToData (p : Position) : PositionData :=
  { position_id := p.position_id
    platform := p.platform
    market_id := p.market_id
    market_name := p.market_name
    side := p.side
    entry_price := p.entry_price
    current_price := p.current_price
    size_usd := p.size_usd
    quantity := p.quantity
    stop_loss := p.stop_loss
    entry_time := p.entry_time
    status := p.status
    leverage := some p.leverage
    liquidation_price := some p.liquidation_price
    funding_rate := some p.funding_rate }

/-- `Position(**pdata)` after the three `setdefault` calls in `load_state`:
absent `leverage` / `liquidation_price` default to `None`, absent
`funding_rate` to `0.0`; `take_profit` is never in the dict, so the dataclass
default `None` applies. -/
def positionOfData (d : PositionData) : Position :=
  { position_id := d.position_id
    platform := d.platform
    market_id := d.market_id
    market_name := d.market_name
    side := d.side
    entry_price := d.entry_price
    current_price := d.current_price
    size_usd := d.size_usd
    quantity := d.quantity
    stop_loss := d.stop_loss
    take_profit := none
    entry_time := d.entry_time
    status := d.status
    leverage := d.leverage.getD none
    liquidation_price := d.liquidation_price.getD none
    funding_rate := d.funding_rate.getD 0 }

/-- `PortfolioManager.save_state`, returning the snapshot content (the file
write is I/O outside the model). -/
def PortfolioManager.save_state (pm : PortfolioManager) : PortfolioState :=
  { current_balance := pm.current_balance
    total_realized_pnl := pm.total_realized_pnl
    total_fees_paid := pm.total_fees_paid
    positions := pm.positions.map (fun kv => (kv.1, positionToData kv.2))
    trade_count := pm.trade_history.length }

/-- `PortfolioManager.load_state` applied to a snapshot that was found on
disk: restore cash and the cumulative totals, then insert each saved position
(`self.positions[pid] = Position(**pdata)`). -/
def PortfolioManager.load_state (pm : PortfolioManager)
    (state : PortfolioState) : PortfolioManager :=
  let pm := { pm with
    current_balance := state.current_balance
    total_realized_pnl := state.total_realized_pnl
    total_fees_paid := state.total_fees_paid }
  { pm with
    positions := state.positions.foldl
      (fun ps kd => dictInsert ps kd.1 (positionOfData kd.2)) pm.positions }

/-! ## Risk engine data model (`strategies/gamblers_logic.py`) -/

/-- The `BetType` enum. -/
inductive BetType where
  | POLYMARKET_YES
  | POLYMARKET_NO
  | DEX_LONG
  | DEX_SHORT
  | LIQUIDITY_SNIPE
deriving DecidableEq

/-- The `Opportunity` dataclass (the free-form `meta` dict is venue metadata,
modelled as a string association list; the core never reads it). -/
structure Opportunity where
  market_id : String
  market_name : String
  bet_type : BetType
  current_price : ℚ
  estimated_fair_value : ℚ
  confidence : ℚ
  volume_24h : ℚ := 0
  momentum_score : ℚ := 0
  time_sensitivity : ℚ := 0
  meta : List (String × String) := []
deriving DecidableEq

/-- `Opportunity.perceived_edge`: absolute mispricing for Polymarket bet
types, price-normalised otherwise (denominator floored at 0.001). -/
def Opportunity.perceived_edge (o : Opportunity) : ℚ :=
  if o.bet_type = .POLYMARKET_YES ∨ o.bet_type = .POLYMARKET_NO then
    |o.estimated_fair_value - o.current_price|
  else
    |o.estimated_fair_value - o.current_price| / max o.current_price (1/1000)

/-- `Opportunity.expected_return`: for Polymarket types with positive price,
`(1/price)·confidence`; every other path falls through to
`(fair_value/max(price, 0.001))·confidence`. -/
def Opportunity.expected_return (o : Opportunity) : ℚ :=
  if o.bet_type = .POLYMARKET_YES ∨ o.bet_type = .POLYMARKET_NO then
    if o.current_price > 0 then (1 / o.current_price) * o.confidence
    else (o.estimated_fair_value / max o.current_price (1/1000)) * o.confidence
  else (o.estimated_fair_value / max o.current_price (1/1000)) * o.confidence

/-- The `BetDecision` dataclass. -/
structure BetDecision where
  opportunity : Opportunity
  bet_size_pct : ℚ
  bet_size_usd : ℚ
  rationale : String
  aggression_level : String
  expected_payout : ℚ
  stop_loss_price : Option ℚ := none
deriving DecidableEq

/-- One entry of `bet_history` as appended by `record_result`. -/
structure BetOutcome where
  won : Bool
  pnl : ℚ
  bankroll_after : ℚ
deriving DecidableEq

/-- The mutable state of `GamblersLogic`. Streak counters are Python ints
that only ever hold non-negative counts, so `ℕ`; `current_streak_type` is
`None`, `"win"` or `"loss"`. -/
structure GamblersLogic where
  config : AgentConfig
  consecutive_losses : ℕ
  consecutive_wins : ℕ
  total_bets : ℕ
  winning_bets : ℕ
  current_streak_type : Option String
  peak_bankroll : ℚ
  current_bankroll : ℚ
  bet_history : List BetOutcome
  doublings_achieved : ℤ
deriving DecidableEq

/-- `GamblersLogic.__init__`. -/
def GamblersLogic.init (config : AgentConfig) : GamblersLogic :=
  { config
    consecutive_losses := 0
    consecutive_wins := 0
    total_bets := 0
    winning_bets := 0
    current_streak_type := none
    peak_bankroll := config.trading.starting_capital_usd
    current_bankroll := config.trading.starting_capital_usd
    bet_history := []
    doublings_achieved := 0 }

/-- `_get_optimism_multiplier`: the fixed table keyed by `optimism_level`,
with 1.6 as the fallback for unknown levels. -/
def GamblersLogic.get_optimism_multiplier (g : GamblersLogic) : ℚ :=
  if g.config.optimism_level = "CONSERVATIVE" then 4/5
  else if g.config.optimism_level = "MODERATE" then 1
  else if g.config.optimism_level = "OPTIMISTIC" then 13/10
  else if g.config.optimism_level = "DELUSIONAL" then 8/5
  else if g.config.optimism_level = "ASCENDED" then 2
  else 8/5

/-- `_streak_multiplier`: `min(1 + 0.1·wins, 1.5)` on a winning streak,
`min(1 + 0.15·losses, 1.8)` on a losing streak, else 1. -/
def GamblersLogic.streak_multiplier (g : GamblersLogic) : ℚ :=
  if g.current_streak_type = some "win" then
    min (1 + g.consecutive_wins * (1/10)) (3/2)
  else if g.current_streak_type = some "loss" then
    min (1 + g.consecutive_losses * (3/20)) (9/5)
  else 1

/-- `kelly_criterion`: base Kelly fraction `(b·p − q)/b` (0 when `b ≤ 0`),
then the fractional-Kelly, optimism and streak multipliers in order, then
`max(min(kelly, max_single_bet_pct), 0.0)`. -/
def GamblersLogic.kelly_criterion (g : GamblersLogic)
    (win_prob odds : ℚ) : ℚ :=
  let q := 1 - win_prob
  if odds ≤ 0 then 0
  else
    let kelly := (odds * win_prob - q) / odds
    let kelly := kelly * g.config.trading.kelly_fraction
    let kelly := kelly * g.get_optimism_multiplier
    let kelly := kelly * g.streak_multiplier
    max (min kelly g.config.trading.max_single_bet_pct) 0

/-- `_estimate_win_probability`: confidence plus momentum, volume and
optimism bonuses, clamped to `[0.05, 0.95]`. -/
def GamblersLogic.estimate_win_probability (g : GamblersLogic)
    (opp : Opportunity) : ℚ :=
  let base_prob := opp.confidence
  let momentum_bonus := opp.momentum_score * (1/10)
  let volume_bonus :=
    if opp.volume_24h > 10000 then min (opp.volume_24h / 100000) (1/20) else 0
  let optimism_bias :=
    if g.config.optimism_level = "DELUSIONAL" then (1/20 : ℚ) else 1/50
  max (min (base_prob + momentum_bonus + volume_bonus + optimism_bias) (19/20)) (1/20)

/-- `_calculate_stop_loss`: stop fraction widened by 1.5 when
`confidence > 0.8`; Polymarket bet types floor the stop price at 0.01. The
Python return type is `Optional[float]` but both branches return a value. -/
def GamblersLogic.calculate_stop_loss (g : GamblersLogic)
    (opp : Opportunity) : ℚ :=
  let stop_pct := g.config.trading.stop_loss_pct
  let stop_pct := if opp.confidence > 4/5 then stop_pct * (3/2) else stop_pct
  if opp.bet_type = .POLYMARKET_YES ∨ opp.bet_type = .POLYMARKET_NO then
    max (opp.current_price * (1 - stop_pct)) (1/100)
  else opp.current_price * (1 - stop_pct)

/-- `_generate_rationale`: the source formats one of several f-string
templates chosen by `random.choice`; the text is display-only and no claim
reads it, so the string content and the randomness are abstracted. -/
def GamblersLogic.generate_rationale (_g : GamblersLogic) (opp : Opportunity)
    (_win_prob _edge _bet_pct : ℚ) : String :=
  opp.market_name

/-- `evaluate_opportunity`: edge gate (threshold halved after three straight
losses), Kelly sizing, dust gates (`bet_pct ≤ 0.001`, `bet_usd < 0.10`),
aggression tiering, stop-loss and expected payout. -/
def GamblersLogic.evaluate_opportunity (g : GamblersLogic)
    (opp : Opportunity) : Option BetDecision :=
  let edge := opp.perceived_edge
  let min_edge := g.config.trading.min_edge_threshold
  let min_edge := if g.consecutive_losses ≥ 3 then min_edge * (1/2) else min_edge
  if edge < min_edge then none
  else
    let win_prob := g.estimate_win_probability opp
    let odds := opp.expected_return
    let bet_pct := g.kelly_criterion win_prob odds
    if bet_pct ≤ 1/1000 then none
    else
      let bet_usd := g.current_bankroll * bet_pct
      if bet_usd < 1/10 then none
      else
        let aggression :=
          if bet_pct > 1/5 then "full_degen"
          else if bet_pct > 1/10 then "aggressive"
          else "calculated"
        let stop_loss := g.calculate_stop_loss opp
        let expected_payout := bet_usd * odds * win_prob
        let rationale := g.generate_rationale opp win_prob edge bet_pct
        some { opportunity := opp
               bet_size_pct := bet_pct
               bet_size_usd := bet_usd
               rationale
               aggression_level := aggression
               expected_payout
               stop_loss_price := some stop_loss }

/-- `record_result`: bump `total_bets`, move the bankroll, refresh the peak
and the doubling count on a new high, then apply the streak transition and
append to `bet_history`. `int(math.log2(r))` for `r > 1` is the floor of the
base-2 logarithm, i.e. `Int.log 2 r`. -/
def GamblersLogic.record_result (g : GamblersLogic) (won : Bool) (pnl : ℚ) :
    GamblersLogic :=
  let g := { g with
    total_bets := g.total_bets + 1
    current_bankroll := g.current_bankroll + pnl }
  let g :=
    if g.current_bankroll > g.peak_bankroll then
      { g with
        peak_bankroll := g.current_bankroll
        doublings_achieved :=
          if g.current_bankroll > g.config.trading.starting_capital_usd then
            Int.log 2 (g.current_bankroll / g.config.trading.starting_capital_usd)
          else 0 }
    else g
  let g :=
    if won then
      let g := { g with winning_bets := g.winning_bets + 1 }
      if g.current_streak_type = some "win" then
        { g with consecutive_wins := g.consecutive_wins + 1 }
      else
        { g with current_streak_type := some "win"
                 consecutive_wins := 1
                 consecutive_losses := 0 }
    else
      if g.current_streak_type = some "loss" then
        { g with consecutive_losses := g.consecutive_losses + 1 }
      else
        { g with current_streak_type := some "loss"
                 consecutive_losses := 1
                 consecutive_wins := 0 }
  { g with bet_history := g.bet_history ++
      [{ won, pnl, bankroll_after := g.current_bankroll }] }

/-- `should_cut_losses`: true when the drawdown from peak strictly exceeds
one half (guarded by `peak_bankroll > 0`), or after five straight losses.
The `opp` argument is unused in the source body. -/
def GamblersLogic.should_cut_losses (g : GamblersLogic)
    (_opp : Opportunity) : Bool :=
  if g.peak_bankroll > 0 ∧
      (g.peak_bankroll - g.current_bankroll) / g.peak_bankroll > 1/2 then true
  else if 5 ≤ g.consecutive_losses then true
  else false

/-- `rank_opportunities`: evaluate each opportunity, keep the decisions, sort
descending by payout weighted by time sensitivity and the full-degen boost. -/
def GamblersLogic.rank_opportunities (g : GamblersLogic)
    (opportunities : List Opportunity) : List BetDecision :=
  let decisions := opportunities.filterMap (fun opp => g.evaluate_opportunity opp)
  decisions.mergeSort (fun a b =>
    a.expected_payout * (1 + a.opportunity.time_sensitivity) *
        (if a.aggression_level = "full_degen" then 6/5 else 1) ≥
      b.expected_payout * (1 + b.opportunity.time_sensitivity) *
        (if b.aggression_level = "full_degen" then 6/5 else 1))

/-! ## Concrete configurations and inputs used by the claim theorems -/

/-- The default `TradingConfig` values of `config.py` (environment unset):
capital 2.00, target 2000000, max bet 0.25, stop 0.15, half-Kelly, minimum
edge 0.05. -/
def tradingDefault : TradingConfig :=
  { starting_capital_usd := 2
    moonshot_target_usd := 2000000
    max_single_bet_pct := 1/4
    stop_loss_pct := 3/20
    kelly_fraction := 1/2
    compound_wins := true
    min_edge_threshold := 1/20 }

/-- Default `AgentConfig`: optimism level DELUSIONAL (multiplier 1.6, bias
0.05). -/
def cfgDefault : AgentConfig :=
  { trading := tradingDefault, optimism_level := "DELUSIONAL" }

/-- The opportunity of the concrete scenario in the spec: Polymarket side,
price 0.30, confidence 0.70, no momentum, no volume (fair value 0.75 gives a
0.45 edge, above the 0.05 threshold). -/
def oppScenario : Opportunity :=
  { market_id := "m1"
    market_name := "scenario-market"
    bet_type := .POLYMARKET_YES
    current_price := 3/10
    estimated_fair_value := 3/4
    confidence := 7/10 }

/-- A cheap Polymarket opportunity (price 0.005) that the engine accepts but
whose raw stop-loss price falls under the 0.01 floor. -/
def oppPenny : Opportunity :=
  { market_id := "m9"
    market_name := "penny"
    bet_type := .POLYMARKET_YES
    current_price := 1/200
    estimated_fair_value := 1/2
    confidence := 1/2 }

/-- An opportunity whose perceived edge (0.01) is below the configured
minimum edge threshold (0.05). -/
def oppLowEdge : Opportunity :=
  { market_id := "m8"
    market_name := "low-edge"
    bet_type := .POLYMARKET_YES
    current_price := 3/10
    estimated_fair_value := 31/100
    confidence := 7/10 }

/-- A fresh default ledger (cash 2.00) after opening a 1.00 USD unleveraged
position at entry price 1.00 (so the market price equals the entry price). -/
def pmOpen1 : PortfolioManager × Position :=
  (PortfolioManager.init cfgDefault).open_position "p1" "polymarket" "m1"
    "mkt" "yes" 1 1

/-- A fresh default ledger (cash 2.00) asked to open a 100.00 USD unleveraged
position: the required collateral far exceeds cash. -/
def pmOverdraw : PortfolioManager × Position :=
  (PortfolioManager.init cfgDefault).open_position "p1" "polymarket" "m1"
    "mkt" "yes" 1 100

/-- A fresh default ledger asked to open a position at entry price -1. -/
def pmNegPrice : PortfolioManager × Position :=
  (PortfolioManager.init cfgDefault).open_position "p2" "polymarket" "m2"
    "mkt" "yes" (-1) 5

/-- An engine sitting at exactly half of its peak bankroll with no losing
streak. -/
def gHalfPeak : GamblersLogic :=
  { GamblersLogic.init cfgDefault with peak_bankroll := 2, current_bankroll := 1 }

/-- An engine well below half of its peak bankroll. -/
def gDeepDraw : GamblersLogic :=
  { GamblersLogic.init cfgDefault with
      peak_bankroll := 2, current_bankroll := 1/2 }

/-- The decision the default engine produces for `oppPenny`. -/
def dPenny : BetDecision :=
  { opportunity := oppPenny
    bet_size_pct := 1/4
    bet_size_usd := 1/2
    rationale := "penny"
    aggression_level := "full_degen"
    expected_payout := 55/2
    stop_loss_price := some (1/100) }

/-- A ledger holding one open position that carries a take-profit level. -/
def pmTP : PortfolioManager :=
  ((PortfolioManager.init cfgDefault).open_position "p1" "polymarket" "m1"
    "mkt" "yes" (1/2) 1 none (some 5)).1

/-- A position entry as an older snapshot would hold it: the
`leverage`, `liquidation_price` and `funding_rate` keys are absent (outer
`none`). -/
def pdOld : PositionData :=
  { position_id := "p9"
    platform := "polymarket"
    market_id := "m9"
    market_name := "mkt"
    side := "yes"
    entry_price := 1/2
    current_price := 3/5
    size_usd := 1
    quantity := 2
    stop_loss := none
    entry_time := 0
    status := "open"
    leverage := none
    liquidation_price := none
    funding_rate := none }

/-- An older snapshot containing only `pdOld`. -/
def stOld : PortfolioState :=
  { current_balance := 3/2
    total_realized_pnl := 1/4
    total_fees_paid := 0
    positions := [("p9", pdOld)]
    trade_count := 0 }

/-- The streak bookkeeping invariant maintained by `record_result`. -/
def streakInv (g : GamblersLogic) : Prop :=
  (g.current_streak_type = some "win" ∧ g.consecutive_losses = 0)
  ∨ (g.current_streak_type = some "loss" ∧ g.consecutive_wins = 0)
  ∨ (g.current_streak_type = none
      ∧ g.consecutive_wins = 0 ∧ g.consecutive_losses = 0)

/-! ## Helper lemmas -/

/-- Looking up the key just written by `dictInsert` returns the new value. -/
theorem dictGet_dictInsert (l : List (String × Position)) (k : String)
    (v : Position) : dictGet (dictInsert l k v) k = some v := by
  induction l with
  | nil => simp [dictInsert, dictGet, List.find?]
  | cons a t ih =>
    by_cases ha : a.1 = k
    · simp [dictInsert, dictGet, ha, List.find?]
    · simpa [dictInsert, dictGet, ha, List.find?] using ih

/-- Inserting a fresh key appends it at the end. -/
theorem dictInsert_of_fresh (l : List (String × Position)) (k : String)
    (v : Position) (h : ∀ a ∈ l, a.1 ≠ k) :
    dictInsert l k v = l ++ [(k, v)] := by
  induction l with
  | nil => simp [dictInsert]
  | cons a t ih =>
    have ha : a.1 ≠ k := h a (List.mem_cons_self a t)
    simp only [dictInsert, if_neg ha, List.cons_append, List.cons.injEq, true_and]
    exact ih (fun b hb => h b (List.mem_cons_of_mem a hb))

/-- A position whose current price equals its entry price carries zero
unrealized P&L, whatever the side and leverage. -/
theorem unrealized_pnl_eq_zero_of_price_eq (p : Position)
    (h : p.current_price = p.entry_price) : p.unrealized_pnl = 0 := by
  unfold Position.unrealized_pnl
  rw [h]
  cases p.leverage <;> simp [sub_self]

/-- Round-tripping a single position through the snapshot loses exactly
`take_profit` (never written by `save_state`) and keeps every other field. -/
theorem positionOfData_positionToData (p : Position) :
    positionOfData (positionToData p) = { p with take_profit := none } := rfl

/-- Folding `dictInsert` over fresh, pairwise-distinct keys appends the
loaded positions in order. -/
theorem load_foldl_eq_append (ps : List (String × PositionData))
    (acc : List (String × Position))
    (hnd : (ps.map Prod.fst).Nodup)
    (hdisj : ∀ p ∈ ps, ∀ a ∈ acc, a.1 ≠ p.1) :
    ps.foldl (fun d kd => dictInsert d kd.1 (positionOfData kd.2)) acc
      = acc ++ ps.map (fun kd => (kd.1, positionOfData kd.2)) := by
  induction ps generalizing acc with
  | nil => simp
  | cons hd tl ih =>
    simp only [List.foldl_cons]
    rw [dictInsert_of_fresh acc hd.1 (positionOfData hd.2)
      (fun a ha => hdisj hd (List.mem_cons_self hd tl) a ha)]
    rw [ih (acc ++ [(hd.1, positionOfData hd.2)])]
    · simp
    · exact (List.nodup_cons.mp (by simpa using hnd)).2
    · intro p hp a ha
      rcases List.mem_append.mp ha with h1 | h1
      · exact hdisj p (List.mem_cons_of_mem hd hp) a h1
      · have : a = (hd.1, positionOfData hd.2) := by simpa using h1
        subst this
        have hk : hd.1 ∉ tl.map Prod.fst :=
          (List.nodup_cons.mp (by simpa using hnd)).1
        intro hcontra
        exact hk (hcontra ▸ List.mem_map_of_mem Prod.fst hp)

/-- One `record_result` step preserves the streak invariant. -/
theorem streakInv_record_result (g : GamblersLogic) (w : Bool) (pnl : ℚ)
    (h : streakInv g) : streakInv (g.record_result w pnl) := by
  unfold streakInv at h ⊢
  unfold GamblersLogic.record_result
  rcases h with ⟨h1, h2⟩ | ⟨h1, h2⟩ | ⟨h1, h2, h3⟩ <;>
    cases w <;>
    simp [h1, h2,
      apply_ite (fun s : GamblersLogic => s.current_streak_type),
      apply_ite (fun s : GamblersLogic => s.consecutive_wins),
      apply_ite (fun s : GamblersLogic => s.consecutive_losses)]

/-! ## Claim theorems -/

/-- C1: the spec claims that opening a position at the current market price
leaves `total_portfolio_value` (cash plus the sum of open unrealized P&L)
unchanged while `cash` and `total_exposure` change. The code fails this: at
the failing input (cash 2.00, unleveraged open of 1.00 USD at price 1.00,
so `current_price = entry_price` at open), `total_portfolio_value` drops
from 2.00 to 1.00 — the property adds only the unrealized P&L (zero at
open) while cash has already lost the collateral, contradicting its own
docstring (total value = cash + positions) and spec ledger invariant 3. -/
theorem C1_open_at_market_price_drops_total_value :
    (PortfolioManager.init cfgDefault).total_portfolio_value = 2
    ∧ pmOpen1.2.current_price = pmOpen1.2.entry_price
    ∧ pmOpen1.1.total_portfolio_value = 1
    ∧ pmOpen1.1.current_balance = 1
    ∧ pmOpen1.1.total_exposure = 1 := by
  refine ⟨?_, rfl, ?_, ?_, ?_⟩ <;>
    norm_num [pmOpen1, PortfolioManager.init, PortfolioManager.open_position,
      PortfolioManager.total_portfolio_value, PortfolioManager.total_exposure,
      cfgDefault, tradingDefault, dictInsert, Position.unrealized_pnl]

/-- C2: the spec claims `open_position` rejects `entry_price ≤ 0` /
`size_usd ≤ 0` with `ValidationError` and `collateral > cash` with
`InsufficientFunds`, mutating nothing on failure. The code has no failure
path at all: at the failing inputs, a 100.00 USD open against 2.00 cash
still inserts an open position and drives cash to -98.00, and an open at
entry price -1 inserts an open position with quantity 0 and debits cash.
Neither exception type exists anywhere in the codebase. -/
theorem C2_open_position_never_validates :
    pmOverdraw.1.current_balance = -98
    ∧ dictGet pmOverdraw.1.positions "p1" = some pmOverdraw.2
    ∧ pmOverdraw.2.status = "open"
    ∧ pmNegPrice.2.quantity = 0
    ∧ pmNegPrice.2.status = "open"
    ∧ pmNegPrice.1.current_balance = -3 := by
  refine ⟨?_, ?_, rfl, ?_, rfl, ?_⟩
  · norm_num [pmOverdraw, PortfolioManager.init, PortfolioManager.open_position,
      cfgDefault, tradingDefault]
  · simp [pmOverdraw, PortfolioManager.init, PortfolioManager.open_position,
      cfgDefault, tradingDefault, dictInsert, dictGet, List.find?]
  · norm_num [pmNegPrice, PortfolioManager.init, PortfolioManager.open_position,
      cfgDefault, tradingDefault]
  · norm_num [pmNegPrice, PortfolioManager.init, PortfolioManager.open_position,
      cfgDefault, tradingDefault]

/-- C5: the concrete scenario. With the default configuration (bankroll
2.00, half-Kelly, max bet 0.25, DELUSIONAL optimism: multiplier 1.6 and
bias 0.05), no streak, and a probability-market opportunity at price 0.30
with confidence 0.70, no momentum and no volume, the engine computes
win probability 0.75, odds 7/3 ≈ 2.333, Kelly clamped to 0.25, and returns
a decision with `bet_size_pct = 0.25`, `bet_size_usd = 0.50` and aggression
tier `full_degen`. -/
theorem C5_concrete_scenario :
    (GamblersLogic.init cfgDefault).estimate_win_probability oppScenario = 3/4
    ∧ oppScenario.expected_return = 7/3
    ∧ (GamblersLogic.init cfgDefault).kelly_criterion (3/4) (7/3) = 1/4
    ∧ ((GamblersLogic.init cfgDefault).evaluate_opportunity oppScenario).map
        (fun d => (d.bet_size_pct, d.bet_size_usd, d.aggression_level))
      = some (1/4, 1/2, "full_degen") := by
  have habs : |(3:ℚ)/4 - 3/10| = 9/20 := by
    rw [show (3:ℚ)/4 - 3/10 = 9/20 by norm_num]
    exact abs_of_nonneg (by norm_num)
  refine ⟨?_, ?_, ?_, ?_⟩
  · norm_num [GamblersLogic.init, GamblersLogic.estimate_win_probability,
      cfgDefault, tradingDefault, oppScenario, min_def, max_def]
  · norm_num [Opportunity.expected_return, oppScenario]
  · simp [GamblersLogic.init, GamblersLogic.kelly_criterion,
      GamblersLogic.get_optimism_multiplier, GamblersLogic.streak_multiplier,
      cfgDefault, tradingDefault, min_def, max_def]
    norm_num
  · simp [GamblersLogic.init, GamblersLogic.evaluate_opportunity,
      GamblersLogic.estimate_win_probability, GamblersLogic.kelly_criterion,
      GamblersLogic.get_optimism_multiplier, GamblersLogic.streak_multiplier,
      GamblersLogic.calculate_stop_loss, GamblersLogic.generate_rationale,
      Opportunity.perceived_edge, Opportunity.expected_return,
      cfgDefault, tradingDefault, oppScenario, min_def, max_def, habs]
    norm_num

/-- C10: streak counters are mutually exclusive. Starting from a freshly
constructed engine, after any sequence of `record_result` calls at least one
of `consecutive_wins` and `consecutive_losses` is 0; moreover the loss
counter is 0 on a win streak and the win counter is 0 on a loss streak. -/
theorem C10_streak_counters_mutually_exclusive (config : AgentConfig)
    (results : List (Bool × ℚ)) :
    let g := results.foldl (fun g r => g.record_result r.1 r.2)
      (GamblersLogic.init config)
    (g.consecutive_wins = 0 ∨ g.consecutive_losses = 0)
    ∧ (g.current_streak_type = some "win" → g.consecutive_losses = 0)
    ∧ (g.current_streak_type = some "loss" → g.consecutive_wins = 0) := by
  have hinv : ∀ (l : List (Bool × ℚ)) (g : GamblersLogic), streakInv g →
      streakInv (l.foldl (fun g r => g.record_result r.1 r.2) g) := by
    intro l
    induction l with
    | nil => intro g hg; exact hg
    | cons a t ih =>
      intro g hg
      exact ih _ (streakInv_record_result g a.1 a.2 hg)
  have h0 : streakInv (GamblersLogic.init config) :=
    Or.inr (Or.inr ⟨rfl, rfl, rfl⟩)
  rcases hinv results _ h0 with ⟨h1, h2⟩ | ⟨h1, h2⟩ | ⟨h1, h2, h3⟩ <;>
    exact ⟨by simp_all, by simp_all, by simp_all⟩

/-- C3: for every engine state with `max_single_bet_pct ≥ 0` and any win
probability and odds, `kelly_criterion` lands in `[0, max_single_bet_pct]`
(whatever the intermediate multiplier product), and consequently every
decision returned by `evaluate_opportunity` has `bet_size_pct` in that
interval. -/
theorem C3_bet_size_pct_clamped (g : GamblersLogic) (win_prob odds : ℚ)
    (opp : Opportunity)
    (hmax : 0 ≤ g.config.trading.max_single_bet_pct) :
    (0 ≤ g.kelly_criterion win_prob odds
      ∧ g.kelly_criterion win_prob odds ≤ g.config.trading.max_single_bet_pct)
    ∧ ∀ d : BetDecision, g.evaluate_opportunity opp = some d →
        0 ≤ d.bet_size_pct
        ∧ d.bet_size_pct ≤ g.config.trading.max_single_bet_pct := by
  have hk : ∀ p b : ℚ, 0 ≤ g.kelly_criterion p b
      ∧ g.kelly_criterion p b ≤ g.config.trading.max_single_bet_pct := by
    intro p b
    unfold GamblersLogic.kelly_criterion
    split
    · exact ⟨le_refl 0, hmax⟩
    · exact ⟨le_max_right _ 0, max_le (min_le_right _ _) hmax⟩
  refine ⟨hk win_prob odds, ?_⟩
  intro d hd
  simp only [GamblersLogic.evaluate_opportunity] at hd
  repeat' split at hd
  all_goals
    first
      | exact Option.noConfusion hd
      | (have hde := Option.some.inj hd
         subst hde
         exact hk _ _)

/-- Witness for C3 at the default configuration and the scenario inputs. -/
theorem C3_bet_size_pct_clamped_witness :
    0 ≤ (GamblersLogic.init cfgDefault).config.trading.max_single_bet_pct
    ∧ ((0 ≤ (GamblersLogic.init cfgDefault).kelly_criterion (3/4) (7/3)
        ∧ (GamblersLogic.init cfgDefault).kelly_criterion (3/4) (7/3)
            ≤ (GamblersLogic.init cfgDefault).config.trading.max_single_bet_pct)
      ∧ ∀ d : BetDecision,
          (GamblersLogic.init cfgDefault).evaluate_opportunity oppScenario
            = some d →
          0 ≤ d.bet_size_pct
          ∧ d.bet_size_pct
              ≤ (GamblersLogic.init cfgDefault).config.trading.max_single_bet_pct) :=
  ⟨by norm_num [GamblersLogic.init, cfgDefault, tradingDefault],
   C3_bet_size_pct_clamped (GamblersLogic.init cfgDefault) (3/4) (7/3)
     oppScenario
     (by norm_num [GamblersLogic.init, cfgDefault, tradingDefault])⟩

/-- C6 counterexample: the claim says `should_cut_losses` is true whenever
`current_bankroll ≤ 0.5·peak_bankroll`, including exact equality. At
`current = 1`, `peak = 2`, `consecutive_losses = 0` the drawdown is exactly
0.50, the strict `> 0.50` test in the code fails, and the function returns
false. -/
theorem C6_counterexample_exact_half_peak :
    0 < gHalfPeak.peak_bankroll
    ∧ gHalfPeak.current_bankroll ≤ (1/2) * gHalfPeak.peak_bankroll
    ∧ gHalfPeak.consecutive_losses < 5
    ∧ gHalfPeak.should_cut_losses oppScenario = false := by
  refine ⟨?_, ?_, ?_, ?_⟩ <;>
    norm_num [gHalfPeak, GamblersLogic.init, GamblersLogic.should_cut_losses,
      cfgDefault, tradingDefault]

/-- C6 amended: for every engine state with `peak_bankroll > 0`,
`should_cut_losses` returns true whenever `current_bankroll` is STRICTLY
below half the peak (the drawdown test is strict, so exact equality returns
false), and whenever `consecutive_losses ≥ 5`. -/
theorem C6_cut_losses_below_half_peak (g : GamblersLogic) (opp : Opportunity)
    (hpk : 0 < g.peak_bankroll) :
    (g.current_bankroll < (1/2) * g.peak_bankroll →
      g.should_cut_losses opp = true)
    ∧ (5 ≤ g.consecutive_losses → g.should_cut_losses opp = true) := by
  constructor
  · intro hc
    have hdd : (1:ℚ)/2 < (g.peak_bankroll - g.current_bankroll) / g.peak_bankroll := by
      rw [lt_div_iff₀ hpk]
      linarith
    unfold GamblersLogic.should_cut_losses
    rw [if_pos ⟨hpk, hdd⟩]
  · intro hl
    unfold GamblersLogic.should_cut_losses
    split
    · rfl
    · simp [hl]

/-- Witness for the amended C6 on an engine at a quarter of its peak. -/
theorem C6_cut_losses_below_half_peak_witness :
    0 < gDeepDraw.peak_bankroll
    ∧ ((gDeepDraw.current_bankroll < (1/2) * gDeepDraw.peak_bankroll →
        gDeepDraw.should_cut_losses oppScenario = true)
      ∧ (5 ≤ gDeepDraw.consecutive_losses →
        gDeepDraw.should_cut_losses oppScenario = true)) :=
  ⟨by norm_num [gDeepDraw, GamblersLogic.init, cfgDefault, tradingDefault],
   C6_cut_losses_below_half_peak gDeepDraw oppScenario
     (by norm_num [gDeepDraw, GamblersLogic.init, cfgDefault, tradingDefault])⟩

/-- C7: opening any position (valid price and size, any side and leverage)
and immediately closing it at an exit price equal to the entry price yields
a trade record with `realized_pnl = 0` and restores cash to its value before
the open. -/
theorem C7_close_at_entry_restores_cash (pm : PortfolioManager)
    (pid platform market_id market_name side : String)
    (entry_price size_usd : ℚ) (sl tp lev liq : Option ℚ) (t1 t2 : ℚ)
    (reason : String) (_hp : 0 < entry_price) (_hs : 0 < size_usd) :
    (((pm.open_position pid platform market_id market_name side entry_price
          size_usd sl tp lev liq t1).1.close_position pid entry_price reason
          t2).2).map (fun r => r.realized_pnl) = some 0
    ∧ ((pm.open_position pid platform market_id market_name side entry_price
          size_usd sl tp lev liq t1).1.close_position pid entry_price reason
          t2).1.current_balance = pm.current_balance := by
  simp only [PortfolioManager.open_position, PortfolioManager.close_position,
    dictGet_dictInsert]
  have hpnl : ∀ q : ℚ, Position.unrealized_pnl
      { position_id := pid, platform, market_id, market_name, side
        entry_price, current_price := entry_price, size_usd
        quantity := q, stop_loss := sl, take_profit := tp
        entry_time := t1, status := "closed"
        leverage := lev, liquidation_price := liq, funding_rate := 0 } = 0 :=
    fun q => unrealized_pnl_eq_zero_of_price_eq _ rfl
  cases lev with
  | none => simp [hpnl]
  | some l =>
    by_cases hl : l > 1 <;> simp [hpnl, hl]

/-- Witness for C7: a leveraged short opened on a fresh default ledger and
closed at its entry price. -/
theorem C7_close_at_entry_restores_cash_witness :
    0 < (5/2 : ℚ) ∧ 0 < (1 : ℚ)
    ∧ ((((PortfolioManager.init cfgDefault).open_position "p1" "hyperliquid"
          "m1" "mkt" "short" (5/2) 1 none none (some 3) none 7).1.close_position
          "p1" (5/2) "manual" 9).2).map (fun r => r.realized_pnl) = some 0
    ∧ (((PortfolioManager.init cfgDefault).open_position "p1" "hyperliquid"
          "m1" "mkt" "short" (5/2) 1 none none (some 3) none 7).1.close_position
          "p1" (5/2) "manual" 9).1.current_balance
        = (PortfolioManager.init cfgDefault).current_balance :=
  ⟨by norm_num, by norm_num,
   (C7_close_at_entry_restores_cash (PortfolioManager.init cfgDefault) "p1"
      "hyperliquid" "m1" "mkt" "short" (5/2) 1 none none (some 3) none 7 9
      "manual" (by norm_num) (by norm_num)).1,
   (C7_close_at_entry_restores_cash (PortfolioManager.init cfgDefault) "p1"
      "hyperliquid" "m1" "mkt" "short" (5/2) 1 none none (some 3) none 7 9
      "manual" (by norm_num) (by norm_num)).2⟩

/-- C8: whenever the perceived edge of an opportunity is strictly below the
effective minimum edge threshold — the configured threshold, halved exactly
when `consecutive_losses ≥ 3` — `evaluate_opportunity` returns no
decision. -/
theorem C8_edge_below_threshold_rejected (g : GamblersLogic)
    (opp : Opportunity)
    (h : opp.perceived_edge <
      (if g.consecutive_losses ≥ 3 then
        g.config.trading.min_edge_threshold * (1/2)
      else g.config.trading.min_edge_threshold)) :
    g.evaluate_opportunity opp = none := by
  simp only [GamblersLogic.evaluate_opportunity]
  split
  · next hcond =>
      rw [if_pos hcond] at h
      rw [if_pos h]
  · next hcond =>
      rw [if_neg hcond] at h
      rw [if_pos h]

/-- Witness for C8: a fresh default engine rejects an opportunity whose
edge (0.01) is below the configured threshold (0.05). -/
theorem C8_edge_below_threshold_rejected_witness :
    oppLowEdge.perceived_edge <
      (if (GamblersLogic.init cfgDefault).consecutive_losses ≥ 3 then
        (GamblersLogic.init cfgDefault).config.trading.min_edge_threshold * (1/2)
      else (GamblersLogic.init cfgDefault).config.trading.min_edge_threshold)
    ∧ (GamblersLogic.init cfgDefault).evaluate_opportunity oppLowEdge = none :=
  have hlt : oppLowEdge.perceived_edge <
      (if (GamblersLogic.init cfgDefault).consecutive_losses ≥ 3 then
        (GamblersLogic.init cfgDefault).config.trading.min_edge_threshold * (1/2)
      else (GamblersLogic.init cfgDefault).config.trading.min_edge_threshold) := by
    have habs : |(31:ℚ)/100 - 3/10| = 1/100 := by
      rw [show (31:ℚ)/100 - 3/10 = 1/100 by norm_num]
      exact abs_of_nonneg (by norm_num)
    simp [Opportunity.perceived_edge, oppLowEdge, GamblersLogic.init,
      cfgDefault, tradingDefault, habs]
    norm_num
  ⟨hlt, C8_edge_below_threshold_rejected (GamblersLogic.init cfgDefault)
    oppLowEdge hlt⟩

/-- C9 counterexample: the default engine accepts the cheap Polymarket
opportunity `oppPenny` (price 0.005, confidence 0.5, so no stop widening)
and attaches stop price 0.01 — the Polymarket floor — whereas the claimed
formula `current_price·(1 − stop_pct)` gives 0.00425. -/
theorem C9_counterexample_polymarket_floor :
    ((GamblersLogic.init cfgDefault).evaluate_opportunity oppPenny).map
      (fun d => d.stop_loss_price) = some (some (1/100))
    ∧ ¬ ((1:ℚ)/100
        = oppPenny.current_price * (1 - cfgDefault.trading.stop_loss_pct)) := by
  have habs : |(1:ℚ)/2 - 1/200| = 99/200 := by
    rw [show (1:ℚ)/2 - 1/200 = 99/200 by norm_num]
    exact abs_of_nonneg (by norm_num)
  have habs2 : |(99:ℚ)/200| = 99/200 := abs_of_nonneg (by norm_num)
  constructor
  · simp [GamblersLogic.init, GamblersLogic.evaluate_opportunity,
      GamblersLogic.estimate_win_probability, GamblersLogic.kelly_criterion,
      GamblersLogic.get_optimism_multiplier, GamblersLogic.streak_multiplier,
      GamblersLogic.calculate_stop_loss, GamblersLogic.generate_rationale,
      Opportunity.perceived_edge, Opportunity.expected_return,
      cfgDefault, tradingDefault, oppPenny, min_def, max_def, habs, habs2]
    norm_num
    exact ⟨_, ⟨le_trans (by norm_num) (le_abs_self _), rfl⟩, rfl⟩
  · norm_num [oppPenny, cfgDefault, tradingDefault]

/-- C9 amended: for every decision the engine produces, the attached stop
price is `current_price·(1 − stop_pct)` — `stop_pct` widened by 1.5× exactly
when `confidence > 0.8` — for asset-market bet types, but for
probability-market bet types it is that value floored at 0.01. -/
theorem C9_stop_loss_formula_with_floor (g : GamblersLogic)
    (opp : Opportunity) (d : BetDecision)
    (h : g.evaluate_opportunity opp = some d) :
    d.stop_loss_price = some (
      if opp.bet_type = .POLYMARKET_YES ∨ opp.bet_type = .POLYMARKET_NO then
        max (opp.current_price *
          (1 - (if opp.confidence > 4/5 then
            g.config.trading.stop_loss_pct * (3/2)
          else g.config.trading.stop_loss_pct))) (1/100)
      else
        opp.current_price *
          (1 - (if opp.confidence > 4/5 then
            g.config.trading.stop_loss_pct * (3/2)
          else g.config.trading.stop_loss_pct))) := by
  simp only [GamblersLogic.evaluate_opportunity] at h
  repeat' split at h
  all_goals
    first
      | exact Option.noConfusion h
      | (have hde := Option.some.inj h
         subst hde
         rfl)

/-- Witness for the amended C9 on the accepted `oppPenny` decision. -/
theorem C9_stop_loss_formula_with_floor_witness :
    (GamblersLogic.init cfgDefault).evaluate_opportunity oppPenny = some dPenny
    ∧ dPenny.stop_loss_price = some (
      if oppPenny.bet_type = .POLYMARKET_YES ∨ oppPenny.bet_type = .POLYMARKET_NO then
        max (oppPenny.current_price *
          (1 - (if oppPenny.confidence > 4/5 then
            (GamblersLogic.init cfgDefault).config.trading.stop_loss_pct * (3/2)
          else (GamblersLogic.init cfgDefault).config.trading.stop_loss_pct))) (1/100)
      else
        oppPenny.current_price *
          (1 - (if oppPenny.confidence > 4/5 then
            (GamblersLogic.init cfgDefault).config.trading.stop_loss_pct * (3/2)
          else (GamblersLogic.init cfgDefault).config.trading.stop_loss_pct))) :=
  have hEval : (GamblersLogic.init cfgDefault).evaluate_opportunity oppPenny
      = some dPenny := by
    have habs : |(1:ℚ)/2 - 1/200| = 99/200 := by
      rw [show (1:ℚ)/2 - 1/200 = 99/200 by norm_num]
      exact abs_of_nonneg (by norm_num)
    have habs2 : |(99:ℚ)/200| = 99/200 := abs_of_nonneg (by norm_num)
    simp [GamblersLogic.init, GamblersLogic.evaluate_opportunity,
      GamblersLogic.estimate_win_probability, GamblersLogic.kelly_criterion,
      GamblersLogic.get_optimism_multiplier, GamblersLogic.streak_multiplier,
      GamblersLogic.calculate_stop_loss, GamblersLogic.generate_rationale,
      Opportunity.perceived_edge, Opportunity.expected_return,
      cfgDefault, tradingDefault, oppPenny, dPenny, min_def, max_def, habs,
      habs2]
    norm_num
    exact le_trans (by norm_num) (le_abs_self _)
  ⟨hEval, C9_stop_loss_formula_with_floor (GamblersLogic.init cfgDefault)
    oppPenny dPenny hEval⟩

/-- C4 counterexample: the claim lists `take_profit` among the position
fields reconstructed by save-then-load, but `save_state` never writes it:
the position saved with `take_profit = 5` comes back with
`take_profit = None`. -/
theorem C4_counterexample_take_profit_dropped :
    (dictGet pmTP.positions "p1").map (fun p => p.take_profit) = some (some 5)
    ∧ (dictGet ((PortfolioManager.init cfgDefault).load_state
        pmTP.save_state).positions "p1").map (fun p => p.take_profit)
      = some none := by
  constructor <;>
    simp [pmTP, PortfolioManager.init, PortfolioManager.open_position,
      PortfolioManager.save_state, PortfolioManager.load_state,
      positionToData, positionOfData, cfgDefault, tradingDefault,
      dictInsert, dictGet, List.find?]

/-- C4 amended: loading a saved snapshot into a fresh ledger reconstructs
cash, both cumulative totals, and every position with every field equal to
the original EXCEPT `take_profit`, which is absent from the snapshot and
defaults to `None`. Moreover loading tolerates older snapshots: every
snapshot (saved by this version or not) loads each entry through
`positionOfData`, and an entry whose `leverage`, `liquidation_price` and
`funding_rate` keys are absent loads with `leverage = None`,
`liquidation_price = None` and `funding_rate = 0`, the `setdefault`
defaults. Keys are assumed pairwise distinct, as Python dict keys are. -/
theorem C4_roundtrip_except_take_profit (pm : PortfolioManager)
    (cfg0 : AgentConfig) (st : PortfolioState) (d : PositionData)
    (hkeys : (pm.positions.map Prod.fst).Nodup)
    (hst : (st.positions.map Prod.fst).Nodup)
    (hlev : d.leverage = none) (hliq : d.liquidation_price = none)
    (hfr : d.funding_rate = none) :
    ((PortfolioManager.init cfg0).load_state pm.save_state).current_balance
        = pm.current_balance
    ∧ ((PortfolioManager.init cfg0).load_state pm.save_state).total_realized_pnl
        = pm.total_realized_pnl
    ∧ ((PortfolioManager.init cfg0).load_state pm.save_state).total_fees_paid
        = pm.total_fees_paid
    ∧ ((PortfolioManager.init cfg0).load_state pm.save_state).positions
        = pm.positions.map (fun kv => (kv.1, { kv.2 with take_profit := none }))
    ∧ ((PortfolioManager.init cfg0).load_state st).positions
        = st.positions.map (fun kd => (kd.1, positionOfData kd.2))
    ∧ (positionOfData d).leverage = none
    ∧ (positionOfData d).liquidation_price = none
    ∧ (positionOfData d).funding_rate = 0 := by
  refine ⟨rfl, rfl, rfl, ?_, ?_, ?_, ?_, ?_⟩
  · have h1 : ((PortfolioManager.init cfg0).load_state pm.save_state).positions
        = pm.save_state.positions.foldl
          (fun d kd => dictInsert d kd.1 (positionOfData kd.2)) [] := rfl
    rw [h1, load_foldl_eq_append]
    · simp [PortfolioManager.save_state, List.map_map, Function.comp,
        positionOfData_positionToData]
    · simpa [PortfolioManager.save_state, List.map_map, Function.comp]
        using hkeys
    · intro p _ a ha
      exact absurd ha (List.not_mem_nil a)
  · have h2 : ((PortfolioManager.init cfg0).load_state st).positions
        = st.positions.foldl
          (fun d kd => dictInsert d kd.1 (positionOfData kd.2)) [] := rfl
    rw [h2, load_foldl_eq_append]
    · simp
    · exact hst
    · intro p _ a ha
      exact absurd ha (List.not_mem_nil a)
  · simp [positionOfData, hlev]
  · simp [positionOfData, hliq]
  · simp [positionOfData, hfr]

/-- Witness for the amended C4 on the one-position ledger `pmTP` and the
old-format snapshot `stOld`, whose single entry lacks the `leverage`,
`liquidation_price` and `funding_rate` keys. -/
theorem C4_roundtrip_except_take_profit_witness :
    (pmTP.positions.map Prod.fst).Nodup
    ∧ (stOld.positions.map Prod.fst).Nodup
    ∧ pdOld.leverage = none
    ∧ pdOld.liquidation_price = none
    ∧ pdOld.funding_rate = none
    ∧ (((PortfolioManager.init cfgDefault).load_state pmTP.save_state).current_balance
        = pmTP.current_balance
      ∧ ((PortfolioManager.init cfgDefault).load_state pmTP.save_state).total_realized_pnl
        = pmTP.total_realized_pnl
      ∧ ((PortfolioManager.init cfgDefault).load_state pmTP.save_state).total_fees_paid
        = pmTP.total_fees_paid
      ∧ ((PortfolioManager.init cfgDefault).load_state pmTP.save_state).positions
        = pmTP.positions.map (fun kv => (kv.1, { kv.2 with take_profit := none }))
      ∧ ((PortfolioManager.init cfgDefault).load_state stOld).positions
        = stOld.positions.map (fun kd => (kd.1, positionOfData kd.2))
      ∧ (positionOfData pdOld).leverage = none
      ∧ (positionOfData pdOld).liquidation_price = none
      ∧ (positionOfData pdOld).funding_rate = 0) :=
  have hkeys : (pmTP.positions.map Prod.fst).Nodup := by
    simp [pmTP, PortfolioManager.init, PortfolioManager.open_position,
      cfgDefault, tradingDefault, dictInsert]
  have hst : (stOld.positions.map Prod.fst).Nodup := by
    simp [stOld]
  ⟨hkeys, hst, rfl, rfl, rfl,
   C4_roundtrip_except_take_profit pmTP cfgDefault stOld pdOld hkeys hst
     rfl rfl rfl⟩

end AgentGambler
